import Mathlib

/-!
Shallow embedding of the transaction dispatch core of the repository:
the two entry points `sendTransaction` (sign-and-submit,
src/unnamed/part_000) and `signTransaction` (sign-only,
src/src/actions/wallet/signTransaction.ts), together with the
collaborator interfaces they call.  Network round-trips and the
invocation of the local signing capability are recorded in an event
trace; collaborator responses are supplied by an `Env` record so that
every dispatch is a pure, executable function.
-/

namespace Viem

abbrev Address := String

/-- Hex encoding of a numeric quantity, as the source's `numberToHex`
(prefix `0x`, lowercase hex digits). -/
def numberToHex (n : Nat) : String :=
  "0x" ++ String.mk (Nat.toDigits 16 n)

/-- The canonical transaction record shape (`TransactionRequest` /
`TransactionSerializable`): recipient, value, data payload, gas fields in
legacy (`gasPrice`) or fee-market (`maxFeePerGas`/`maxPriorityFeePerGas`)
shape, nonce, access list, chain id, plus chain-specific extension
fields (`extra`).  `fromAddr` stands for the source's `from` property
(`from` is reserved in Lean). -/
structure Tx where
  fromAddr : Option Address := none
  «to» : Option Address := none
  value : Option Nat := none
  data : Option String := none
  gas : Option Nat := none
  gasPrice : Option Nat := none
  maxFeePerGas : Option Nat := none
  maxPriorityFeePerGas : Option Nat := none
  nonce : Option Nat := none
  accessList : Option String := none
  chainId : Option Nat := none
  extra : List (String × String) := []
  deriving DecidableEq

/-- The wire-request shape (`RpcTransactionRequest`): numeric quantities
hex-encoded as strings. -/
structure RpcTx where
  fromAddr : Option Address := none
  «to» : Option Address := none
  value : Option String := none
  data : Option String := none
  gas : Option String := none
  gasPrice : Option String := none
  maxFeePerGas : Option String := none
  maxPriorityFeePerGas : Option String := none
  nonce : Option String := none
  accessList : Option String := none
  chainId : Option String := none
  extra : List (String × String) := []
  deriving DecidableEq

/-- A `ChainDescriptor`: numeric id plus the optional formatter and
serializer hooks (`chain.formatters?.transactionRequest?.format`,
`chain.serializers?.transaction`).  The formatter field is doubly
optional, mirroring the source where the `formatters` object may be
present while `transactionRequest.format` is absent.  `defaults` stands
for the chain-specific default/extension fields of the spec's Field
Preparer. -/
structure Chain where
  id : Nat
  formatters : Option (Option (Tx → RpcTx)) := none
  serializers : Option Nat := none
  defaults : List (String × String) := []

/-- A JavaScript `Chain | null | undefined` value, as appears in the
`chain` argument after destructuring: `undefined` (absent), the `null`
opt-out sentinel, or an actual chain. -/
inductive ChainVal where
  | undef
  | null
  | val (c : Chain)

def ChainVal.toOption : ChainVal → Option Chain
  | .undef => none
  | .null => none
  | .val c => some c

/-- A canonical `Account`: `localAcc` owns a signing capability (given a
canonical record and an optional serializer hook it produces signed wire
bytes or fails), `jsonRpc` carries only an address and delegates signing
across the transport.  The source branches on `account.type === 'local'`. -/
inductive Account where
  | localAcc (address : Address) (signTransaction : Tx → Option Nat → Except String String)
  | jsonRpc (address : Address)

def Account.address : Account → Address
  | .localAcc a _ => a
  | .jsonRpc a => a

def Account.isLocal : Account → Bool
  | .localAcc _ _ => true
  | .jsonRpc _ => false

/-- A loosely-typed account reference: a bare address or an already
canonical account. -/
inductive AccountRef where
  | addr (a : Address)
  | acct (a : Account)

/-- Modelled from the spec: §4.1 Account Resolver — `parseAccount`
(src/src/accounts/utils/parseAccount.ts is not in the excerpt)
normalizes a bare address into a `json-rpc`-tagged account and passes a
canonical account through unchanged.  Pure. -/
def parseAccount : AccountRef → Account
  | .addr a => .jsonRpc a
  | .acct a => a

/-- A long-lived client configuration: optional hoisted account and
optional chain. -/
structure Client where
  account : Option AccountRef := none
  chain : Option Chain := none

/-- Error causes raised by the pipeline stages (the error taxonomy of
spec §7 before the outer wrap). -/
inductive Cause where
  | accountNotFound
  | invalidRequest (msg : String)
  | chainNotFound
  | chainMismatch (declared actual : Nat)
  | transport (msg : String)
  | prepareFailure (msg : String)
  | signingFailure (msg : String)
  deriving DecidableEq

/-- Type `SendTransactionParameters` (src/unnamed/part_000): the caller's
transaction intent plus optional account and chain.  The type is
`UnionOmit<FormattedTransactionRequest<...>, 'from'>`, so there is no
`from` field and no `chainId` field; `rest` holds the chain-specific
extension fields picked up by the `...rest` destructuring. -/
structure SendTransactionParameters where
  account : Option AccountRef := none
  chain : ChainVal := .undef
  accessList : Option String := none
  data : Option String := none
  gas : Option Nat := none
  gasPrice : Option Nat := none
  maxFeePerGas : Option Nat := none
  maxPriorityFeePerGas : Option Nat := none
  nonce : Option Nat := none
  «to» : Option Address := none
  value : Option Nat := none
  rest : List (String × String) := []

/-- Type `SignTransactionParameters` (signTransaction.ts): as above but the
union type additionally admits an explicit `chainId : number` variant
(with `chain?: never`); `from` is again omitted by `UnionOmit`. -/
structure SignTransactionParameters where
  account : Option AccountRef := none
  chain : ChainVal := .undef
  chainId : Option Nat := none
  accessList : Option String := none
  data : Option String := none
  gas : Option Nat := none
  gasPrice : Option Nat := none
  maxFeePerGas : Option Nat := none
  maxPriorityFeePerGas : Option Nat := none
  nonce : Option Nat := none
  «to» : Option Address := none
  value : Option Nat := none
  rest : List (String × String) := []

/-- The context attached by the outer error wrap of `sendTransaction`:
`{...args, account, chain: args.chain || undefined}` — the original
intent (args), the resolved account, and the caller-passed chain
(`undefined` when the caller passed none or `null`). -/
structure ErrCtx where
  args : SendTransactionParameters
  account : Account
  chain : Option Chain

/-- An error as delivered to the caller: either a bare cause or a cause
wrapped once with context. -/
inductive DispatchError where
  | plain (c : Cause)
  | wrapped (c : Cause) (ctx : ErrCtx)

def DispatchError.isWrapped : DispatchError → Bool
  | .plain _ => false
  | .wrapped _ _ => true

def causeOf : DispatchError → Cause
  | .plain c => c
  | .wrapped c _ => c

/-- Parameters of a `client.request` round-trip: raw signed bytes
(`eth_sendRawTransaction`) or a formatted record. -/
inductive RpcParams where
  | raw (bytes : String)
  | tx (r : RpcTx)
  deriving DecidableEq

/-- Observable events of one dispatch, in order: chain-id fetch
round-trip, fee/nonce estimation round-trip, local signing capability
invocation (not a network round-trip), and a `client.request` round-trip
with its method and params. -/
inductive Event where
  | fetchChainId
  | estimate
  | sign (payload : Tx) (serializer : Option Nat)
  | rpc (method : String) (params : RpcParams)
  deriving DecidableEq

/-- Whether an event is a network round-trip.  Local signing is
network-independent. -/
def Event.isNetwork : Event → Bool
  | .sign _ _ => false
  | _ => true

def Event.isRpc : Event → Bool
  | .rpc _ _ => true
  | _ => false

/-- Estimation results returned by the fee/nonce estimation
collaborator. -/
structure Estimates where
  gas : Nat
  nonce : Nat
  maxFeePerGas : Nat
  maxPriorityFeePerGas : Nat
  deriving DecidableEq

/-- Responses of the external collaborators for one dispatch (spec §6):
chain-id query, fee/nonce estimation, broadcast
(`eth_sendRawTransaction`), remote sign-and-submit
(`eth_sendTransaction`) and remote sign (`eth_signTransaction`).
Each may fail with a transport-level error message. -/
structure Env where
  chainId : Except String Nat
  estimates : Except String Estimates
  sendRawTransaction : String → Except String String
  sendTransactionRpc : RpcTx → Except String String
  signTransactionRpc : RpcTx → Except String String

/-- The JavaScript destructuring default `chain = client.chain`: the
default applies only when the argument is `undefined`; the `null`
sentinel and an explicit chain pass through. -/
def resolveChainVal (client : Client) : ChainVal → ChainVal
  | .undef =>
    match client.chain with
    | some c => .val c
    | none => .undef
  | .null => .null
  | .val c => .val c

/-- The JavaScript destructuring default
`account: account_ = client.account`. -/
def resolveAccountRef (client : Client) (a : Option AccountRef) : Option AccountRef :=
  a.orElse fun _ => client.account

/-- Modelled from the spec: §4.2 Request Validator — `assertRequest`
(src/src/utils/transaction/assertRequest.ts is not in the excerpt).
Fails fast with `InvalidRequest` when the intent is structurally
impossible to submit: no recipient and no data payload (the data
model's recipient-or-data rule, Scenario C), or legacy and fee-market
price fields set simultaneously (§4.2).  Pure, no network access. -/
def assertRequest (toField data : Option String)
    (gasPrice maxFeePerGas maxPriorityFeePerGas : Option Nat) : Except Cause Unit :=
  if toField.isNone && data.isNone then
    .error (.invalidRequest "neither recipient nor data payload")
  else if gasPrice.isSome && (maxFeePerGas.isSome || maxPriorityFeePerGas.isSome) then
    .error (.invalidRequest "legacy and fee-market gas price both set")
  else
    .ok ()

/-- Modelled from the spec: §4.3 Chain Consistency Guard —
`assertCurrentChain` (src/src/utils/chain.ts is not in the excerpt).
Compares the node's current chain id to the declared chain descriptor's
id; on mismatch fails with `ChainMismatch` carrying both ids; with no
declared chain to compare against it fails with a chain-not-found
error. -/
def assertCurrentChain (currentChainId : Nat) (chain : Option Chain) : Except Cause Unit :=
  match chain with
  | none => .error .chainNotFound
  | some c =>
    if c.id = currentChainId then .ok ()
    else .error (.chainMismatch c.id currentChainId)

/-- Modelled from the spec: §4.4 — the baseline formatter
`formatTransactionRequest`
(src/src/utils/formatters/transactionRequest.ts is not in the excerpt):
a pure reshape of the record to the wire-request shape, hex-encoding
numeric quantities and passing the remaining fields through. -/
def formatTransactionRequest (t : Tx) : RpcTx :=
  { fromAddr := t.fromAddr
    «to» := t.«to»
    data := t.data
    accessList := t.accessList
    value := t.value.map numberToHex
    gas := t.gas.map numberToHex
    gasPrice := t.gasPrice.map numberToHex
    maxFeePerGas := t.maxFeePerGas.map numberToHex
    maxPriorityFeePerGas := t.maxPriorityFeePerGas.map numberToHex
    nonce := t.nonce.map numberToHex
    chainId := t.chainId.map numberToHex
    extra := t.extra }

/-- Sequencing of trace-producing fallible steps: on failure the trace
so far is kept and the error propagates; on success the continuation's
trace is appended. -/
def stepBind (x : List Event × Except Cause α) (f : α → List Event × Except Cause β) :
    List Event × Except Cause β :=
  match x with
  | (tr, .error e) => (tr, .error e)
  | (tr, .ok a) => ((tr ++ (f a).1), (f a).2)

/-- Modelled from the spec: §6 chain id query — `getChainId`
(src/src/actions/public/getChainId.ts is not in the excerpt): one
round-trip returning the node's numeric chain identifier, which may
fail with a transport error. -/
def fetchChainIdStep (env : Env) : List Event × Except Cause Nat :=
  match env.chainId with
  | .error m => ([.fetchChainId], .error (.transport m))
  | .ok n => ([.fetchChainId], .ok n)

/-- The guarded chain-check block of `sendTransaction`:
`if (chain !== null) { chainId = await getChainId(client);
assertCurrentChain({currentChainId: chainId, chain}) }`.  Returns the
fetched chain id when the guard ran, `none` when it was skipped. -/
def chainGuardStep (env : Env) : ChainVal → List Event × Except Cause (Option Nat)
  | .null => ([], .ok none)
  | .undef =>
    stepBind (fetchChainIdStep env) fun n =>
      match assertCurrentChain n none with
      | .error e => ([], .error e)
      | .ok _ => ([], .ok (some n))
  | .val c =>
    stepBind (fetchChainIdStep env) fun n =>
      match assertCurrentChain n (some c) with
      | .error e => ([], .error e)
      | .ok _ => ([], .ok (some n))

/-- Source line `if (!chainId) chainId = await getChainId(client)` of the local
branch of `sendTransaction` — JavaScript truthiness: refetches both
when the guard was skipped and when the fetched id was `0`. -/
def ensureChainId (env : Env) : Option Nat → List Event × Except Cause Nat
  | none => fetchChainIdStep env
  | some n => if n = 0 then fetchChainIdStep env else ([], .ok n)

/-- Merge of the chain-specific default fields below the caller's
extension fields (spec §4.4 priority (a) below (b)): a default is kept
only where the caller supplied no field of the same name. -/
def mergeDefaults (defaults extra : List (String × String)) : List (String × String) :=
  defaults.filter (fun kv => (extra.find? (fun kv2 => kv2.1 == kv.1)).isNone) ++ extra

/-- Whether any fee/nonce/gas field is left for estimation to fill. -/
def needsEstimation (t : Tx) : Bool :=
  t.gas.isNone || t.nonce.isNone ||
    (t.gasPrice.isNone && (t.maxFeePerGas.isNone || t.maxPriorityFeePerGas.isNone))

/-- Modelled from the spec: §4.4 Field Preparer — `prepareRequest`
(src/src/utils/transaction/prepareRequest.ts is not in the excerpt).
Merges, in increasing priority, chain-specific default fields, the
caller-supplied fields, and externally estimated fee/nonce/gas values
for the fields the caller left unset (estimation only fills gaps; the
legacy `gasPrice`, when set by the caller, suppresses fee-market
fills).  The estimation round-trip happens only when some gap exists;
its failure surfaces as `RequestPreparationError`. -/
def prepareRequest (chain : Option Chain) (t : Tx) (env : Env) :
    List Event × Except Cause Tx :=
  let t := { t with extra := mergeDefaults ((chain.map Chain.defaults).getD []) t.extra }
  if needsEstimation t then
    match env.estimates with
    | .error m => ([.estimate], .error (.prepareFailure m))
    | .ok est =>
      ([.estimate], .ok { t with
        gas := some (t.gas.getD est.gas)
        nonce := some (t.nonce.getD est.nonce)
        maxFeePerGas :=
          if t.gasPrice.isSome then t.maxFeePerGas
          else some (t.maxFeePerGas.getD est.maxFeePerGas)
        maxPriorityFeePerGas :=
          if t.gasPrice.isSome then t.maxPriorityFeePerGas
          else some (t.maxPriorityFeePerGas.getD est.maxPriorityFeePerGas) })
  else ([], .ok t)

/-- The named intent fields that `sendTransaction` destructures and
passes along (`accessList, data, gas, gasPrice, maxFeePerGas,
maxPriorityFeePerGas, nonce, to, value, ...rest`): no `from`, no
`chainId`. -/
def argsToTx (args : SendTransactionParameters) : Tx :=
  { «to» := args.«to»
    value := args.value
    data := args.data
    gas := args.gas
    gasPrice := args.gasPrice
    maxFeePerGas := args.maxFeePerGas
    maxPriorityFeePerGas := args.maxPriorityFeePerGas
    nonce := args.nonce
    accessList := args.accessList
    extra := args.rest }

/-- The record sent on the remote branch of `sendTransaction`:
`format({...extract(rest, {format}), accessList, data, from:
account.address, gas, ...})` with
`format = chain?.formatters?.transactionRequest?.format ||
formatTransactionRequest`.  Note: no `chainId` is attached here. -/
def sendTxRemoteRequest (chain : ChainVal) (args : SendTransactionParameters)
    (addr : Address) : RpcTx :=
  let format := ((((chain.toOption).bind Chain.formatters).bind id).getD formatTransactionRequest)
  format { argsToTx args with fromAddr := some addr }

/-- Modelled from the spec: §4.6 Error Normalizer — `getTransactionError`
(src/src/utils/errors/getTransactionError.ts is not in the excerpt):
wraps a failure once, retaining it as the cause and attaching the given
context. -/
def getTransactionError (e : Cause) (ctx : ErrCtx) : DispatchError :=
  .wrapped e ctx

/-- The expression `args.chain || undefined` as used by the catch block of
`sendTransaction`. -/
def argsChainOrNone : ChainVal → Option Chain
  | .val c => some c
  | _ => none

/-- The catch context of `sendTransaction`:
`{...args, account, chain: args.chain || undefined}`. -/
def sendErrCtx (args : SendTransactionParameters) (account : Account) : ErrCtx :=
  { args := args, account := account, chain := argsChainOrNone args.chain }

/-- The body of the `try` block of `sendTransaction`
(src/unnamed/part_000 lines 114-178): validation, guarded chain check,
then the local branch (prepare, ensure chain id, sign, broadcast via
`eth_sendRawTransaction`) or the remote branch (format and submit via
`eth_sendTransaction`). -/
def sendTransactionTry (client : Client) (env : Env)
    (args : SendTransactionParameters) (account : Account) :
    List Event × Except Cause String :=
  match assertRequest args.«to» args.data args.gasPrice args.maxFeePerGas
      args.maxPriorityFeePerGas with
  | .error e => ([], .error e)
  | .ok _ =>
    let chain := resolveChainVal client args.chain
    stepBind (chainGuardStep env chain) fun chainId0 =>
      match account with
      | .localAcc _ signFn =>
        stepBind (prepareRequest chain.toOption (argsToTx args) env) fun request =>
          stepBind (ensureChainId env chainId0) fun chainId =>
            let serializer := (chain.toOption).bind Chain.serializers
            let payload := { request with chainId := some chainId }
            match signFn payload serializer with
            | .error m => ([.sign payload serializer], .error (.signingFailure m))
            | .ok signed =>
              match env.sendRawTransaction signed with
              | .error m =>
                ([.sign payload serializer, .rpc "eth_sendRawTransaction" (.raw signed)],
                  .error (.transport m))
              | .ok h =>
                ([.sign payload serializer, .rpc "eth_sendRawTransaction" (.raw signed)],
                  .ok h)
      | .jsonRpc addr =>
        let request := sendTxRemoteRequest chain args addr
        match env.sendTransactionRpc request with
        | .error m => ([.rpc "eth_sendTransaction" (.tx request)], .error (.transport m))
        | .ok h => ([.rpc "eth_sendTransaction" (.tx request)], .ok h)

/-- Entry point `sendTransaction` (src/unnamed/part_000 lines 108-185): account
resolution with `AccountNotFoundError` thrown before the `try` block,
the `try` body above, and the `catch` block
`throw getTransactionError(err, {...args, account, chain: args.chain ||
undefined})`. -/
def sendTransaction (client : Client) (env : Env)
    (args : SendTransactionParameters) :
    List Event × Except DispatchError String :=
  match resolveAccountRef client args.account with
  | none => ([], .error (.plain .accountNotFound))
  | some ref =>
    let account := parseAccount ref
    match sendTransactionTry client env args account with
    | (tr, .ok h) => (tr, .ok h)
    | (tr, .error e) =>
      (tr, .error (getTransactionError e (sendErrCtx args account)))

/-- The `...transaction` rest of `signTransaction`'s destructuring:
everything except `account` and `chain` — in particular a
caller-supplied `chainId` stays in the record. -/
def signArgsToTx (args : SignTransactionParameters) : Tx :=
  { «to» := args.«to»
    value := args.value
    data := args.data
    gas := args.gas
    gasPrice := args.gasPrice
    maxFeePerGas := args.maxFeePerGas
    maxPriorityFeePerGas := args.maxPriorityFeePerGas
    nonce := args.nonce
    accessList := args.accessList
    chainId := args.chainId
    extra := args.rest }

/-- Source lines `const formatters = chain?.formatters || client.chain?.formatters;
const format = formatters?.transactionRequest?.format ||
formatTransactionRequest` of `signTransaction`. -/
def signFormatOf (client : Client) (chain : ChainVal) : Tx → RpcTx :=
  let formatters :=
    ((chain.toOption).bind Chain.formatters).orElse fun _ => client.chain.bind Chain.formatters
  (formatters.bind id).getD formatTransactionRequest

/-- The guard `if (chain !== null) assertCurrentChain({currentChainId: chainId,
chain})` of `signTransaction`. -/
def signChainCheck (chainId : Nat) : ChainVal → Except Cause Unit
  | .null => .ok ()
  | .undef => assertCurrentChain chainId none
  | .val c => assertCurrentChain chainId (some c)

/-- Entry point `signTransaction` (src/src/actions/wallet/signTransaction.ts lines
50-96): account resolution, validation, an unconditional chain-id
fetch, the guarded chain comparison, then either the local signing
capability applied to `{chainId, ...transaction}` with
`client.chain?.serializers?.transaction`, or one `eth_signTransaction`
round-trip with `{chainId: numberToHex(chainId),
...format(transaction)}`.  There is no try/catch: every failure
propagates to the caller as-is. -/
def signTransaction (client : Client) (env : Env)
    (args : SignTransactionParameters) :
    List Event × Except DispatchError String :=
  match resolveAccountRef client args.account with
  | none => ([], .error (.plain .accountNotFound))
  | some ref =>
    let account := parseAccount ref
    match assertRequest args.«to» args.data args.gasPrice args.maxFeePerGas
        args.maxPriorityFeePerGas with
    | .error e => ([], .error (.plain e))
    | .ok _ =>
      let chain := resolveChainVal client args.chain
      match env.chainId with
      | .error m => ([.fetchChainId], .error (.plain (.transport m)))
      | .ok chainId =>
        match signChainCheck chainId chain with
        | .error e => ([.fetchChainId], .error (.plain e))
        | .ok _ =>
          match account with
          | .localAcc _ signFn =>
            let payload :=
              { signArgsToTx args with chainId := some (args.chainId.getD chainId) }
            let serializer := client.chain.bind Chain.serializers
            match signFn payload serializer with
            | .error m =>
              ([.fetchChainId, .sign payload serializer], .error (.plain (.signingFailure m)))
            | .ok bytes => ([.fetchChainId, .sign payload serializer], .ok bytes)
          | .jsonRpc _ =>
            let formatted := signFormatOf client chain (signArgsToTx args)
            let request :=
              { formatted with chainId := some (formatted.chainId.getD (numberToHex chainId)) }
            match env.signTransactionRpc request with
            | .error m =>
              ([.fetchChainId, .rpc "eth_signTransaction" (.tx request)],
                .error (.plain (.transport m)))
            | .ok bytes => ([.fetchChainId, .rpc "eth_signTransaction" (.tx request)], .ok bytes)

end Viem

namespace Viem

/-- Caller-set fields survive into the merged record (pointwise). -/
def fieldPreserved (caller merged : Option α) : Prop :=
  ∀ v, caller = some v → merged = some v

/-- All nine caller-settable intent fields survive from `c` into `t`. -/
def callerFieldsPreserved (c t : Tx) : Prop :=
  fieldPreserved c.«to» t.«to» ∧ fieldPreserved c.value t.value ∧
  fieldPreserved c.data t.data ∧ fieldPreserved c.gas t.gas ∧
  fieldPreserved c.gasPrice t.gasPrice ∧
  fieldPreserved c.maxFeePerGas t.maxFeePerGas ∧
  fieldPreserved c.maxPriorityFeePerGas t.maxPriorityFeePerGas ∧
  fieldPreserved c.nonce t.nonce ∧ fieldPreserved c.accessList t.accessList

/-- Whether every `client.request` round-trip in the trace comes after a
signing event (the second argument tracks whether a signing event has
been seen); fetch and estimation events are ignored. -/
def rpcPrecededBySign : List Event → Bool → Bool
  | [], _ => true
  | Event.sign _ _ :: rest, _ => rpcPrecededBySign rest true
  | Event.rpc _ _ :: rest, seen => seen && rpcPrecededBySign rest seen
  | Event.fetchChainId :: rest, seen => rpcPrecededBySign rest seen
  | Event.estimate :: rest, seen => rpcPrecededBySign rest seen

/-- A concrete local signing capability used in concrete runs. -/
def demoSign : Tx → Option Nat → Except String String := fun _ _ => .ok "0xsigned"

/-- A concrete local account. -/
def demoLocal : Account := .localAcc "0xaaaa" demoSign

/-- A concrete chain with id 1 and no hooks. -/
def chain1 : Chain := { id := 1 }

/-- A client configured with chain id 1 and no hoisted account. -/
def clientA : Client := { chain := some chain1 }

/-- A client with no chain and no account. -/
def clientEmpty : Client := {}

/-- Collaborator responses: node on chain 1, everything succeeds. -/
def demoEnv : Env :=
  { chainId := .ok 1
    estimates := .ok { gas := 21000, nonce := 7, maxFeePerGas := 30, maxPriorityFeePerGas := 2 }
    sendRawTransaction := fun _ => .ok "0xhash"
    sendTransactionRpc := fun _ => .ok "0xhash2"
    signTransactionRpc := fun _ => .ok "0xbytes" }

/-- Same collaborators but the node reports chain id 5. -/
def envWrongChain : Env := { demoEnv with chainId := .ok 5 }

def gargsC1 : SignTransactionParameters :=
  { account := some (.acct demoLocal), «to» := some "0xc1" }

def sargsC1w : SendTransactionParameters := { «to» := some "0xw1" }

def gargsC1w : SignTransactionParameters := { «to» := some "0xw1" }

def gargsC2 : SignTransactionParameters :=
  { account := some (.acct demoLocal), chain := .null, «to» := some "0xc2" }

def sargsC2w : SendTransactionParameters :=
  { account := some (.addr "0xbb"), chain := .null, «to» := some "0xw2" }

def gargsC3 : SignTransactionParameters :=
  { account := some (.acct demoLocal), chainId := some 7, «to» := some "0xc3" }

def txC3 : Tx := { «to» := some "0xc3", chainId := some 7 }

def sargsC3w : SendTransactionParameters := { «to» := some "0xw3s" }

def gargsC3w : SignTransactionParameters :=
  { account := some (.acct demoLocal), chainId := some 9, «to» := some "0xw3" }

def txC3w : Tx := { «to» := some "0xw3", chainId := some 9 }

def gargsC4 : SignTransactionParameters :=
  { account := some (.acct demoLocal), «to» := some "0xc4" }

def txC4 : Tx := { «to» := some "0xc4", chainId := some 1 }

def sargsC4w : SendTransactionParameters :=
  { account := some (.acct demoLocal), «to» := some "0xw4" }

def gargsC4w : SignTransactionParameters :=
  { account := some (.acct demoLocal), «to» := some "0xw4g" }

def sargsC5 : SendTransactionParameters :=
  { account := some (.addr "0xbb"), «to» := some "0xc5" }

def rpcC5 : RpcTx := { fromAddr := some "0xbb", «to» := some "0xc5" }

def sargsC5w : SendTransactionParameters :=
  { account := some (.addr "0xdd"), «to» := some "0xw5s" }

def gargsC5w : SignTransactionParameters :=
  { account := some (.addr "0xcc"), «to» := some "0xw5" }

def rpcC5w : RpcTx := { «to» := some "0xw5", chainId := some (numberToHex 1) }

def sargsC6 : SendTransactionParameters :=
  { account := some (.acct demoLocal), «to» := some "0xc6" }

def gargsC6 : SignTransactionParameters :=
  { account := some (.acct demoLocal), «to» := some "0xc6g" }

def sargsC7 : SendTransactionParameters := { account := some (.acct demoLocal) }

def gargsC7 : SignTransactionParameters := { account := some (.addr "0xee") }

def sargsC8 : SendTransactionParameters :=
  { account := some (.acct demoLocal), «to» := some "0xc8", value := some 5, gas := some 30000 }

def gargsC8 : SignTransactionParameters :=
  { account := some (.acct demoLocal), «to» := some "0xc8g" }

def txC8 : Tx :=
  { «to» := some "0xc8", value := some 5, gas := some 30000, nonce := some 7,
    maxFeePerGas := some 30, maxPriorityFeePerGas := some 2, chainId := some 1 }

def sargsC9 : SendTransactionParameters :=
  { account := some (.addr "0xbb"), chain := .null, «to» := some "0xc9" }

def sargsC10 : SendTransactionParameters :=
  { account := some (.addr "0xff"), «to» := some "0xca" }

def rpcC10 : RpcTx := { fromAddr := some "0xff", «to» := some "0xca" }


lemma fetchChainIdStep_trace (env : Env) : (fetchChainIdStep env).1 = [Event.fetchChainId] := by
  unfold fetchChainIdStep
  rcases env.chainId with m | n <;> rfl

lemma fetchChainIdStep_ok {env : Env} {k : Nat} (h : (fetchChainIdStep env).2 = .ok k) :
    env.chainId = .ok k := by
  unfold fetchChainIdStep at h
  rcases he : env.chainId with m | n <;> rw [he] at h <;> simp_all

lemma chainGuardStep_trace (env : Env) (cv : ChainVal) :
    (chainGuardStep env cv).1 = [] ∨ (chainGuardStep env cv).1 = [Event.fetchChainId] := by
  rcases cv with _ | _ | c
  · right
    unfold chainGuardStep stepBind
    rcases hf : fetchChainIdStep env with ⟨tr, r⟩
    have htr : tr = [Event.fetchChainId] := by
      have := fetchChainIdStep_trace env
      rw [hf] at this; exact this
    rcases r with e | n <;> simp [htr]
    rcases assertCurrentChain n none with e | u <;> simp
  · left; rfl
  · right
    unfold chainGuardStep stepBind
    rcases hf : fetchChainIdStep env with ⟨tr, r⟩
    have htr : tr = [Event.fetchChainId] := by
      have := fetchChainIdStep_trace env
      rw [hf] at this; exact this
    rcases r with e | n <;> simp [htr]
    rcases assertCurrentChain n (some c) with e | u <;> simp

lemma chainGuardStep_some {env : Env} {cv : ChainVal} {m : Nat}
    (h : (chainGuardStep env cv).2 = .ok (some m)) : env.chainId = .ok m := by
  rcases cv with _ | _ | c
  · unfold chainGuardStep stepBind at h
    rcases hf : fetchChainIdStep env with ⟨tr, r⟩
    rw [hf] at h
    rcases r with e | n
    · simp at h
    · simp at h
      rcases hc : assertCurrentChain n none with e | u <;> rw [hc] at h <;> simp at h
      subst h
      exact fetchChainIdStep_ok (by rw [hf])
  · simp [chainGuardStep] at h
  · unfold chainGuardStep stepBind at h
    rcases hf : fetchChainIdStep env with ⟨tr, r⟩
    rw [hf] at h
    rcases r with e | n
    · simp at h
    · simp at h
      rcases hc : assertCurrentChain n (some c) with e | u <;> rw [hc] at h <;> simp at h
      subst h
      exact fetchChainIdStep_ok (by rw [hf])


lemma ensureChainId_trace (env : Env) (c : Option Nat) :
    (ensureChainId env c).1 = [] ∨ (ensureChainId env c).1 = [Event.fetchChainId] := by
  rcases c with _ | n
  · right; exact fetchChainIdStep_trace env
  · unfold ensureChainId
    by_cases hn : n = 0
    · right; simp [hn]; exact fetchChainIdStep_trace env
    · left; simp [hn]

lemma ensureChainId_ok {env : Env} {c : Option Nat} {k : Nat}
    (h : (ensureChainId env c).2 = .ok k) :
    env.chainId = .ok k ∨ c = some k := by
  rcases c with _ | n
  · exact Or.inl (fetchChainIdStep_ok h)
  · unfold ensureChainId at h
    by_cases hn : n = 0
    · simp [hn] at h
      exact Or.inl (fetchChainIdStep_ok h)
    · simp [hn] at h
      exact Or.inr (by rw [h])

lemma guard_ensure_ok {env : Env} {cv : ChainVal} {c : Option Nat} {k : Nat}
    (hg : (chainGuardStep env cv).2 = .ok c) (he : (ensureChainId env c).2 = .ok k) :
    env.chainId = .ok k := by
  rcases ensureChainId_ok he with h | h
  · exact h
  · subst h
    exact chainGuardStep_some hg

lemma prepareRequest_trace (c : Option Chain) (t : Tx) (env : Env) :
    (prepareRequest c t env).1 = [] ∨ (prepareRequest c t env).1 = [Event.estimate] := by
  unfold prepareRequest
  by_cases hn : needsEstimation { t with extra := mergeDefaults ((c.map Chain.defaults).getD []) t.extra }
  · rcases he : env.estimates with m | est <;> simp [hn, he]
  · simp [hn]

lemma prepareRequest_preserves {c : Option Chain} {t : Tx} {env : Env} {r : Tx}
    (h : (prepareRequest c t env).2 = .ok r) : callerFieldsPreserved t r := by
  unfold prepareRequest at h
  by_cases hn : needsEstimation { t with extra := mergeDefaults ((c.map Chain.defaults).getD []) t.extra }
  · rcases he : env.estimates with m | est <;> rw [he] at h <;> simp [hn] at h
    subst h
    refine ⟨?_, ?_, ?_, ?_, ?_, ?_, ?_, ?_, ?_⟩ <;> intro v hv <;> simp [hv]
  · simp [hn] at h
    subst h
    refine ⟨?_, ?_, ?_, ?_, ?_, ?_, ?_, ?_, ?_⟩ <;> intro v hv <;> simp [hv]


lemma stepBind_error {α β : Type} (tr : List Event) (e : Cause)
    (f : α → List Event × Except Cause β) :
    stepBind (tr, .error e) f = (tr, .error e) := rfl

lemma stepBind_ok {α β : Type} (tr : List Event) (a : α)
    (f : α → List Event × Except Cause β) :
    stepBind (tr, .ok a) f = (tr ++ (f a).1, (f a).2) := rfl

/-- After successful account resolution, `sendTransaction` is the `try`
body with its error (if any) wrapped once with the catch context. -/
lemma sendTransaction_resolved {client : Client} {env : Env}
    {sargs : SendTransactionParameters} {ref : AccountRef}
    (hr : resolveAccountRef client sargs.account = some ref) :
    sendTransaction client env sargs
      = ((sendTransactionTry client env sargs (parseAccount ref)).1,
          match (sendTransactionTry client env sargs (parseAccount ref)).2 with
          | .ok v => .ok v
          | .error e => .error (.wrapped e (sendErrCtx sargs (parseAccount ref)))) := by
  unfold sendTransaction
  rw [hr]
  rcases ht : sendTransactionTry client env sargs (parseAccount ref) with ⟨tr, r⟩
  rcases r with e | v <;> simp [ht, getTransactionError, sendErrCtx]

/-- Any record handed to the local signing capability by
`sendTransaction` is the prepared request with the freshly fetched chain
id attached. -/
lemma send_sign_mem {client : Client} {env : Env} {sargs : SendTransactionParameters}
    {t : Tx} {ser : Option Nat}
    (h : Event.sign t ser ∈ (sendTransaction client env sargs).1) :
    ∃ k request, env.chainId = .ok k
      ∧ (prepareRequest (resolveChainVal client sargs.chain).toOption
          (argsToTx sargs) env).2 = .ok request
      ∧ t = { request with chainId := some k } := by
  rcases hr : resolveAccountRef client sargs.account with _ | ref
  · unfold sendTransaction at h
    rw [hr] at h
    simp at h
  · rw [sendTransaction_resolved hr] at h
    simp only at h
    unfold sendTransactionTry at h
    rcases hA : assertRequest sargs.«to» sargs.data sargs.gasPrice sargs.maxFeePerGas
        sargs.maxPriorityFeePerGas with e | u
    · rw [hA] at h; simp at h
    · rw [hA] at h
      simp only [] at h
      rcases hG : chainGuardStep env (resolveChainVal client sargs.chain) with ⟨gtr, gr⟩
      rw [hG] at h
      have hgtr := chainGuardStep_trace env (resolveChainVal client sargs.chain)
      rw [hG] at hgtr
      simp only at hgtr
      rcases gr with e | c0
      · rw [stepBind_error] at h
        simp only at h
        rcases hgtr with h1 | h1 <;> rw [h1] at h <;> simp at h
      · rw [stepBind_ok] at h
        simp only at h
        rcases hacc : parseAccount ref with ⟨a, signFn⟩ | addr
        · rw [hacc] at h
          simp only [] at h
          rcases hP : prepareRequest (resolveChainVal client sargs.chain).toOption
              (argsToTx sargs) env with ⟨ptr, pr⟩
          rw [hP] at h
          have hptr := prepareRequest_trace (resolveChainVal client sargs.chain).toOption
              (argsToTx sargs) env
          rw [hP] at hptr
          simp only at hptr
          rcases pr with e | request
          · rw [stepBind_error] at h
            simp only at h
            rcases hgtr with h1 | h1 <;> rcases hptr with h2 | h2 <;>
              rw [h1, h2] at h <;> simp at h
          · rw [stepBind_ok] at h
            simp only at h
            rcases hE : ensureChainId env c0 with ⟨etr, er⟩
            rw [hE] at h
            have hetr := ensureChainId_trace env c0
            rw [hE] at hetr
            simp only at hetr
            rcases er with e | k
            · rw [stepBind_error] at h
              simp only at h
              rcases hgtr with h1 | h1 <;> rcases hptr with h2 | h2 <;>
                rcases hetr with h3 | h3 <;> rw [h1, h2, h3] at h <;> simp at h
            · rw [stepBind_ok] at h
              simp only [] at h
              have henv : env.chainId = .ok k :=
                @guard_ensure_ok env (resolveChainVal client sargs.chain) c0 k
                  (by rw [hG]) (by rw [hE])
              refine ⟨k, request, henv, rfl, ?_⟩
              rcases hS : signFn { request with chainId := some k }
                  ((resolveChainVal client sargs.chain).toOption.bind Chain.serializers)
                  with e | signed
              · rw [hS] at h
                simp only at h
                rcases hgtr with h1 | h1 <;> rcases hptr with h2 | h2 <;>
                  rcases hetr with h3 | h3 <;> rw [h1, h2, h3] at h <;>
                  simp at h <;> exact h.1
              · rw [hS] at h
                simp only at h
                rcases hB : env.sendRawTransaction signed with e | hash <;> rw [hB] at h <;>
                  simp only at h <;>
                  (rcases hgtr with h1 | h1 <;> rcases hptr with h2 | h2 <;>
                    rcases hetr with h3 | h3 <;> rw [h1, h2, h3] at h <;> simp at h <;>
                    exact h.1)
        · -- remote branch: no sign event at all
          rw [hacc] at h
          simp only [] at h
          rcases hC : env.sendTransactionRpc
              (sendTxRemoteRequest (resolveChainVal client sargs.chain) sargs addr)
              with e | hash <;> rw [hC] at h <;> simp only at h <;>
            (rcases hgtr with h1 | h1 <;> rw [h1] at h <;> simp at h)

/-- Any record handed to the local signing capability by `signTransaction`
is the caller intent with `chainId := caller's chainId if supplied, else
the freshly fetched id`. -/
lemma sign_sign_mem {client : Client} {env : Env} {gargs : SignTransactionParameters}
    {t : Tx} {ser : Option Nat}
    (h : Event.sign t ser ∈ (signTransaction client env gargs).1) :
    ∃ n, env.chainId = .ok n
      ∧ t = { signArgsToTx gargs with chainId := some (gargs.chainId.getD n) } := by
  unfold signTransaction at h
  rcases hr : resolveAccountRef client gargs.account with _ | ref
  · rw [hr] at h; simp at h
  · rw [hr] at h
    simp only [] at h
    rcases hA : assertRequest gargs.«to» gargs.data gargs.gasPrice gargs.maxFeePerGas
        gargs.maxPriorityFeePerGas with e | u
    · rw [hA] at h; simp at h
    · rw [hA] at h
      simp only [] at h
      rcases hc : env.chainId with m | n
      · rw [hc] at h; simp at h
      · rw [hc] at h
        simp only [] at h
        rcases hchk : signChainCheck n (resolveChainVal client gargs.chain) with e | u2
        · rw [hchk] at h; simp at h
        · rw [hchk] at h
          simp only [] at h
          rcases hacc : parseAccount ref with ⟨a, signFn⟩ | addr
          · rw [hacc] at h
            simp only [] at h
            refine ⟨n, rfl, ?_⟩
            rcases hS : signFn { signArgsToTx gargs with chainId := some (gargs.chainId.getD n) }
                (client.chain.bind Chain.serializers) with e | bytes <;>
              rw [hS] at h <;> simp at h <;> exact h.1
          · rw [hacc] at h
            simp only [] at h
            rcases hC : env.signTransactionRpc
                { signFormatOf client (resolveChainVal client gargs.chain) (signArgsToTx gargs) with
                  chainId := some ((signFormatOf client (resolveChainVal client gargs.chain)
                    (signArgsToTx gargs)).chainId.getD (numberToHex n)) } with e | bytes <;>
              rw [hC] at h <;> simp at h

/-- Any formatted record sent by `signTransaction` over the remote
channel is the formatted caller intent with a hex chain id attached
(the fetched id unless the formatter output already carried one). -/
lemma sign_rpcTx_mem {client : Client} {env : Env} {gargs : SignTransactionParameters}
    {m : String} {r : RpcTx}
    (h : Event.rpc m (.tx r) ∈ (signTransaction client env gargs).1) :
    ∃ n, env.chainId = .ok n ∧ m = "eth_signTransaction"
      ∧ r = { signFormatOf client (resolveChainVal client gargs.chain) (signArgsToTx gargs) with
              chainId := some ((signFormatOf client (resolveChainVal client gargs.chain)
                (signArgsToTx gargs)).chainId.getD (numberToHex n)) } := by
  unfold signTransaction at h
  rcases hr : resolveAccountRef client gargs.account with _ | ref
  · rw [hr] at h; simp at h
  · rw [hr] at h
    simp only [] at h
    rcases hA : assertRequest gargs.«to» gargs.data gargs.gasPrice gargs.maxFeePerGas
        gargs.maxPriorityFeePerGas with e | u
    · rw [hA] at h; simp at h
    · rw [hA] at h
      simp only [] at h
      rcases hc : env.chainId with m2 | n
      · rw [hc] at h; simp at h
      · rw [hc] at h
        simp only [] at h
        rcases hchk : signChainCheck n (resolveChainVal client gargs.chain) with e | u2
        · rw [hchk] at h; simp at h
        · rw [hchk] at h
          simp only [] at h
          rcases hacc : parseAccount ref with ⟨a, signFn⟩ | addr
          · rw [hacc] at h
            simp only [] at h
            rcases hS : signFn { signArgsToTx gargs with chainId := some (gargs.chainId.getD n) }
                (client.chain.bind Chain.serializers) with e | bytes <;>
              rw [hS] at h <;> simp at h
          · rw [hacc] at h
            simp only [] at h
            refine ⟨n, rfl, ?_⟩
            rcases hC : env.signTransactionRpc
                { signFormatOf client (resolveChainVal client gargs.chain) (signArgsToTx gargs) with
                  chainId := some ((signFormatOf client (resolveChainVal client gargs.chain)
                    (signArgsToTx gargs)).chainId.getD (numberToHex n)) } with e | bytes <;>
              rw [hC] at h <;> simp at h <;> exact ⟨h.1, h.2⟩

/-- Any formatted (non-raw) record sent by `sendTransaction` via
`client.request` comes from the remote branch: the method is
`eth_sendTransaction` and the record is the formatted intent with the
resolved account's address as `from` and no chain id. -/
lemma send_rpcTx_mem {client : Client} {env : Env} {sargs : SendTransactionParameters}
    {m : String} {r : RpcTx}
    (h : Event.rpc m (.tx r) ∈ (sendTransaction client env sargs).1) :
    ∃ ref addr, resolveAccountRef client sargs.account = some ref
      ∧ parseAccount ref = .jsonRpc addr
      ∧ m = "eth_sendTransaction"
      ∧ r = sendTxRemoteRequest (resolveChainVal client sargs.chain) sargs addr := by
  rcases hr : resolveAccountRef client sargs.account with _ | ref
  · unfold sendTransaction at h
    rw [hr] at h
    simp at h
  · rw [sendTransaction_resolved hr] at h
    simp only at h
    unfold sendTransactionTry at h
    rcases hA : assertRequest sargs.«to» sargs.data sargs.gasPrice sargs.maxFeePerGas
        sargs.maxPriorityFeePerGas with e | u
    · rw [hA] at h; simp at h
    · rw [hA] at h
      simp only [] at h
      rcases hG : chainGuardStep env (resolveChainVal client sargs.chain) with ⟨gtr, gr⟩
      rw [hG] at h
      have hgtr := chainGuardStep_trace env (resolveChainVal client sargs.chain)
      rw [hG] at hgtr
      simp only at hgtr
      rcases gr with e | c0
      · rw [stepBind_error] at h
        simp only at h
        rcases hgtr with h1 | h1 <;> rw [h1] at h <;> simp at h
      · rw [stepBind_ok] at h
        simp only at h
        rcases hacc : parseAccount ref with ⟨a, signFn⟩ | addr
        · -- local branch has only raw rpc params
          rw [hacc] at h
          simp only [] at h
          rcases hP : prepareRequest (resolveChainVal client sargs.chain).toOption
              (argsToTx sargs) env with ⟨ptr, pr⟩
          rw [hP] at h
          have hptr := prepareRequest_trace (resolveChainVal client sargs.chain).toOption
              (argsToTx sargs) env
          rw [hP] at hptr
          simp only at hptr
          rcases pr with e | request
          · rw [stepBind_error] at h
            simp only at h
            rcases hgtr with h1 | h1 <;> rcases hptr with h2 | h2 <;>
              rw [h1, h2] at h <;> simp at h
          · rw [stepBind_ok] at h
            simp only at h
            rcases hE : ensureChainId env c0 with ⟨etr, er⟩
            rw [hE] at h
            have hetr := ensureChainId_trace env c0
            rw [hE] at hetr
            simp only at hetr
            rcases er with e | k
            · rw [stepBind_error] at h
              simp only at h
              rcases hgtr with h1 | h1 <;> rcases hptr with h2 | h2 <;>
                rcases hetr with h3 | h3 <;> rw [h1, h2, h3] at h <;> simp at h
            · rw [stepBind_ok] at h
              simp only [] at h
              rcases hS : signFn { request with chainId := some k }
                  ((resolveChainVal client sargs.chain).toOption.bind Chain.serializers)
                  with e | signed
              · rw [hS] at h
                simp only at h
                rcases hgtr with h1 | h1 <;> rcases hptr with h2 | h2 <;>
                  rcases hetr with h3 | h3 <;> rw [h1, h2, h3] at h <;> simp at h
              · rw [hS] at h
                simp only at h
                rcases hB : env.sendRawTransaction signed with e | hash <;> rw [hB] at h <;>
                  simp only at h <;>
                  (rcases hgtr with h1 | h1 <;> rcases hptr with h2 | h2 <;>
                    rcases hetr with h3 | h3 <;> rw [h1, h2, h3] at h <;> simp at h)
        · rw [hacc] at h
          simp only [] at h
          refine ⟨ref, addr, rfl, hacc, ?_⟩
          rcases hC : env.sendTransactionRpc
              (sendTxRemoteRequest (resolveChainVal client sargs.chain) sargs addr)
              with e | hash <;> rw [hC] at h <;> simp only at h <;>
            (rcases hgtr with h1 | h1 <;> rw [h1] at h <;> simp at h <;>
              exact ⟨h.1, h.2⟩)


lemma assertRequest_error {toField data : Option String}
    {gasPrice maxFeePerGas maxPriorityFeePerGas : Option Nat} {e : Cause}
    (h : assertRequest toField data gasPrice maxFeePerGas maxPriorityFeePerGas = .error e) :
    ∃ msg, e = .invalidRequest msg := by
  unfold assertRequest at h
  by_cases h1 : toField.isNone && data.isNone
  · simp [h1] at h
    exact ⟨_, h.symm⟩
  · by_cases h2 : gasPrice.isSome && (maxFeePerGas.isSome || maxPriorityFeePerGas.isSome)
    · simp [h1, h2] at h
      exact ⟨_, h.symm⟩
    · simp [h1, h2] at h

lemma fetchChainIdStep_error {env : Env} {e : Cause}
    (h : (fetchChainIdStep env).2 = .error e) : ∃ m, e = .transport m := by
  unfold fetchChainIdStep at h
  rcases he : env.chainId with m | n <;> rw [he] at h <;> simp at h
  exact ⟨m, h.symm⟩

lemma ensureChainId_error {env : Env} {c : Option Nat} {e : Cause}
    (h : (ensureChainId env c).2 = .error e) : ∃ m, e = .transport m := by
  rcases c with _ | n
  · exact fetchChainIdStep_error h
  · unfold ensureChainId at h
    by_cases hn : n = 0
    · simp [hn] at h
      exact fetchChainIdStep_error h
    · simp [hn] at h

lemma prepareRequest_error {c : Option Chain} {t : Tx} {env : Env} {e : Cause}
    (h : (prepareRequest c t env).2 = .error e) : ∃ m, e = .prepareFailure m := by
  unfold prepareRequest at h
  by_cases hn : needsEstimation { t with extra := mergeDefaults ((c.map Chain.defaults).getD []) t.extra }
  · rcases he : env.estimates with m | est <;> rw [he] at h <;> simp [hn] at h
    exact ⟨m, h.symm⟩
  · simp [hn] at h

lemma resolveChainVal_null (client : Client) : resolveChainVal client ChainVal.null = .null := rfl

lemma chainGuardStep_null (env : Env) : chainGuardStep env ChainVal.null = ([], .ok none) := rfl

/-- Every error escaping the `try` body of a dispatch that opted out via
`chain: null` has a cause other than a chain mismatch: the comparison is
never performed. -/
lemma sendTransactionTry_null_cause {client : Client} {env : Env}
    {sargs : SendTransactionParameters} {account : Account} {tr : List Event} {e : Cause}
    (hs : sargs.chain = .null)
    (ht : sendTransactionTry client env sargs account = (tr, .error e)) :
    ∀ d a, e ≠ .chainMismatch d a := by
  intro d a hda
  subst hda
  unfold sendTransactionTry at ht
  rcases hA : assertRequest sargs.«to» sargs.data sargs.gasPrice sargs.maxFeePerGas
      sargs.maxPriorityFeePerGas with e0 | u
  · rw [hA] at ht
    obtain ⟨msg, hmsg⟩ := assertRequest_error hA
    have h2 := congrArg Prod.snd ht
    rw [hmsg] at h2
    simp at h2
  · rw [hA] at ht
    try simp only [] at ht
    rw [hs, resolveChainVal_null, chainGuardStep_null, stepBind_ok] at ht
    try simp only [] at ht
    rcases account with ⟨a0, signFn⟩ | addr
    · try simp only [] at ht
      rcases hP : prepareRequest (ChainVal.null.toOption) (argsToTx sargs) env with ⟨ptr, pr⟩
      rw [hP] at ht
      rcases pr with e1 | request
      · rw [stepBind_error] at ht
        obtain ⟨m, hm⟩ := @prepareRequest_error ChainVal.null.toOption
          (argsToTx sargs) env e1 (by rw [hP])
        have h2 := congrArg Prod.snd ht
        rw [hm] at h2
        simp at h2
      · rw [stepBind_ok] at ht
        try simp only [] at ht
        rcases hE : ensureChainId env none with ⟨etr, er⟩
        rw [hE] at ht
        rcases er with e2 | k
        · rw [stepBind_error] at ht
          obtain ⟨m, hm⟩ := @ensureChainId_error env none e2 (by rw [hE])
          have h2 := congrArg Prod.snd ht
          rw [hm] at h2
          simp at h2
        · rw [stepBind_ok] at ht
          try simp only [] at ht
          have h2 := congrArg Prod.snd ht
          rcases hS : signFn { request with chainId := some k }
              ((ChainVal.null.toOption).bind Chain.serializers) with e3 | signed
          · simp [hS] at h2
          · rcases hB : env.sendRawTransaction signed with e4 | hash <;>
              simp [hS, hB] at h2
    · try simp only [] at ht
      have h2 := congrArg Prod.snd ht
      rcases hC : env.sendTransactionRpc (sendTxRemoteRequest ChainVal.null sargs addr)
          with e1 | hash <;> simp [hC] at h2


/-- `signTransaction` has no try/catch: every delivered error is a bare,
unwrapped cause. -/
lemma sign_error_plain {client : Client} {env : Env} {gargs : SignTransactionParameters}
    {e : DispatchError} (h : (signTransaction client env gargs).2 = .error e) :
    e.isWrapped = false := by
  unfold signTransaction at h
  rcases hr : resolveAccountRef client gargs.account with _ | ref
  · rw [hr] at h
    simp at h
    subst h
    rfl
  · rw [hr] at h
    try simp only [] at h
    rcases hA : assertRequest gargs.«to» gargs.data gargs.gasPrice gargs.maxFeePerGas
        gargs.maxPriorityFeePerGas with e0 | u
    · rw [hA] at h
      simp at h
      subst h
      rfl
    · rw [hA] at h
      try simp only [] at h
      rcases hc : env.chainId with m | n
      · rw [hc] at h
        simp at h
        subst h
        rfl
      · rw [hc] at h
        try simp only [] at h
        rcases hchk : signChainCheck n (resolveChainVal client gargs.chain) with e1 | u2
        · rw [hchk] at h
          simp at h
          subst h
          rfl
        · rw [hchk] at h
          try simp only [] at h
          rcases hacc : parseAccount ref with ⟨a, signFn⟩ | addr
          · rw [hacc] at h
            try simp only [] at h
            rcases hS : signFn { signArgsToTx gargs with chainId := some (gargs.chainId.getD n) }
                (client.chain.bind Chain.serializers) with e2 | bytes <;> simp [hS] at h
            subst h
            rfl
          · rw [hacc] at h
            try simp only [] at h
            rcases hC : env.signTransactionRpc
                { signFormatOf client (resolveChainVal client gargs.chain) (signArgsToTx gargs) with
                  chainId := some ((signFormatOf client (resolveChainVal client gargs.chain)
                    (signArgsToTx gargs)).chainId.getD (numberToHex n)) } with e2 | bytes <;>
              simp [hC] at h
            subst h
            rfl

/-- With the `chain: null` opt-out, a sign-only dispatch never fails with
a chain mismatch: the comparison is skipped. -/
lemma sign_null_cause {client : Client} {env : Env} {gargs : SignTransactionParameters}
    {e : DispatchError} (hg : gargs.chain = .null)
    (h : (signTransaction client env gargs).2 = .error e) :
    ∀ d a, causeOf e ≠ .chainMismatch d a := by
  unfold signTransaction at h
  rcases hr : resolveAccountRef client gargs.account with _ | ref
  · rw [hr] at h
    simp at h
    subst h
    simp [causeOf]
  · rw [hr] at h
    try simp only [] at h
    rcases hA : assertRequest gargs.«to» gargs.data gargs.gasPrice gargs.maxFeePerGas
        gargs.maxPriorityFeePerGas with e0 | u
    · rw [hA] at h
      simp at h
      subst h
      obtain ⟨msg, hmsg⟩ := assertRequest_error hA
      simp [causeOf, hmsg]
    · rw [hA] at h
      try simp only [] at h
      rcases hc : env.chainId with m | n
      · rw [hc] at h
        simp at h
        subst h
        simp [causeOf]
      · rw [hc] at h
        try simp only [] at h
        rw [hg, resolveChainVal_null] at h
        have hchk : signChainCheck n ChainVal.null = .ok () := rfl
        rw [hchk] at h
        try simp only [] at h
        rcases hacc : parseAccount ref with ⟨a, signFn⟩ | addr
        · rw [hacc] at h
          try simp only [] at h
          rcases hS : signFn { signArgsToTx gargs with chainId := some (gargs.chainId.getD n) }
              (client.chain.bind Chain.serializers) with e2 | bytes <;> simp [hS] at h
          subst h
          simp [causeOf]
        · rw [hacc] at h
          try simp only [] at h
          rcases hC : env.signTransactionRpc
              { signFormatOf client ChainVal.null (signArgsToTx gargs) with
                chainId := some ((signFormatOf client ChainVal.null
                  (signArgsToTx gargs)).chainId.getD (numberToHex n)) } with e2 | bytes <;>
            simp [hC] at h
          subst h
          simp [causeOf]

/-- With the `chain: null` opt-out and a remote account, `sendTransaction`
performs no chain-id fetch at all. -/
lemma send_null_no_fetch {client : Client} {env : Env} {sargs : SendTransactionParameters}
    {ref : AccountRef} {addr : Address}
    (hs : sargs.chain = .null)
    (href : resolveAccountRef client sargs.account = some ref)
    (haddr : parseAccount ref = .jsonRpc addr) :
    Event.fetchChainId ∉ (sendTransaction client env sargs).1 := by
  intro hmem
  rw [sendTransaction_resolved href] at hmem
  try simp only [] at hmem
  unfold sendTransactionTry at hmem
  rcases hA : assertRequest sargs.«to» sargs.data sargs.gasPrice sargs.maxFeePerGas
      sargs.maxPriorityFeePerGas with e0 | u
  · rw [hA] at hmem
    simp at hmem
  · rw [hA] at hmem
    try simp only [] at hmem
    rw [hs, resolveChainVal_null, chainGuardStep_null, stepBind_ok, haddr] at hmem
    try simp only [] at hmem
    rcases hC : env.sendTransactionRpc (sendTxRemoteRequest ChainVal.null sargs addr)
        with e1 | hash <;> simp [hC] at hmem

/-- A failed chain comparison inside the guard of `sendTransaction`. -/
lemma chainGuardStep_mismatch {env : Env} {c : Chain} {n : Nat}
    (henv : env.chainId = .ok n) (hne : c.id ≠ n) :
    chainGuardStep env (.val c) = ([Event.fetchChainId], .error (.chainMismatch c.id n)) := by
  unfold chainGuardStep fetchChainIdStep assertCurrentChain stepBind
  rw [henv]
  simp [hne]

/-- When the guard fails, the whole `try` body of `sendTransaction` stops
with the guard trace and the guard error: no preparation, no signing, no
submission. -/
lemma sendTransactionTry_guard_error {client : Client} {env : Env}
    {sargs : SendTransactionParameters} (account : Account) {gtr : List Event} {e : Cause}
    (hA : assertRequest sargs.«to» sargs.data sargs.gasPrice sargs.maxFeePerGas
      sargs.maxPriorityFeePerGas = .ok ())
    (hG : chainGuardStep env (resolveChainVal client sargs.chain) = (gtr, .error e)) :
    sendTransactionTry client env sargs account = (gtr, .error e) := by
  unfold sendTransactionTry
  rw [hA]
  try simp only []
  rw [hG, stepBind_error]

/-- A structurally invalid intent stops the `try` body before anything
else: empty trace, validation error. -/
lemma sendTransactionTry_invalid (client : Client) (env : Env)
    {sargs : SendTransactionParameters} (account : Account) {e : Cause}
    (hA : assertRequest sargs.«to» sargs.data sargs.gasPrice sargs.maxFeePerGas
      sargs.maxPriorityFeePerGas = .error e) :
    sendTransactionTry client env sargs account = ([], .error e) := by
  unfold sendTransactionTry
  rw [hA]

lemma assertRequest_noTarget {toField data : Option String}
    {gasPrice maxFeePerGas maxPriorityFeePerGas : Option Nat}
    (hto : toField = none) (hdata : data = none) :
    assertRequest toField data gasPrice maxFeePerGas maxPriorityFeePerGas
      = .error (.invalidRequest "neither recipient nor data payload") := by
  unfold assertRequest
  simp [hto, hdata]

/-- A structurally invalid intent stops the sign-only dispatch with an
empty trace and an unwrapped validation error. -/
lemma signTransaction_invalid {client : Client} (env : Env)
    {gargs : SignTransactionParameters} {ref : AccountRef} {e : Cause}
    (href : resolveAccountRef client gargs.account = some ref)
    (hA : assertRequest gargs.«to» gargs.data gargs.gasPrice gargs.maxFeePerGas
      gargs.maxPriorityFeePerGas = .error e) :
    signTransaction client env gargs = ([], .error (.plain e)) := by
  unfold signTransaction
  rw [href]
  try simp only []
  rw [hA]

/-- A chain mismatch stops the sign-only dispatch right after the fetch:
one fetch event, unwrapped `ChainMismatch` with both ids. -/
lemma signTransaction_mismatch {client : Client} {env : Env}
    {gargs : SignTransactionParameters} {ref : AccountRef} {c : Chain} {n : Nat}
    (href : resolveAccountRef client gargs.account = some ref)
    (hA : assertRequest gargs.«to» gargs.data gargs.gasPrice gargs.maxFeePerGas
      gargs.maxPriorityFeePerGas = .ok ())
    (henv : env.chainId = .ok n)
    (hcg : resolveChainVal client gargs.chain = .val c) (hne : c.id ≠ n) :
    signTransaction client env gargs
      = ([Event.fetchChainId], .error (.plain (.chainMismatch c.id n))) := by
  unfold signTransaction
  rw [href]
  try simp only []
  rw [hA]
  try simp only []
  rw [henv]
  try simp only []
  rw [hcg]
  have hchk : signChainCheck n (ChainVal.val c) = .error (.chainMismatch c.id n) := by
    unfold signChainCheck assertCurrentChain
    simp [hne]
  rw [hchk]


/-- Shape of a remote sign-and-submit dispatch that passed validation and
the guard: the guard trace followed by exactly one `eth_sendTransaction`
round-trip whose response is returned unmodified (or wrapped as the
transport failure). -/
lemma sendTransaction_remote_shape {client : Client} {env : Env}
    {sargs : SendTransactionParameters} {ref : AccountRef} {addr : Address}
    {gtr : List Event} {c0 : Option Nat}
    (href : resolveAccountRef client sargs.account = some ref)
    (haddr : parseAccount ref = .jsonRpc addr)
    (hA : assertRequest sargs.«to» sargs.data sargs.gasPrice sargs.maxFeePerGas
      sargs.maxPriorityFeePerGas = .ok ())
    (hG : chainGuardStep env (resolveChainVal client sargs.chain) = (gtr, .ok c0)) :
    sendTransaction client env sargs
      = (gtr ++ [Event.rpc "eth_sendTransaction"
            (.tx (sendTxRemoteRequest (resolveChainVal client sargs.chain) sargs addr))],
          match env.sendTransactionRpc
              (sendTxRemoteRequest (resolveChainVal client sargs.chain) sargs addr) with
          | .error m => .error (.wrapped (.transport m) (sendErrCtx sargs (parseAccount ref)))
          | .ok h => .ok h) := by
  have htry : sendTransactionTry client env sargs (parseAccount ref)
      = (gtr ++ [Event.rpc "eth_sendTransaction"
            (.tx (sendTxRemoteRequest (resolveChainVal client sargs.chain) sargs addr))],
          match env.sendTransactionRpc
              (sendTxRemoteRequest (resolveChainVal client sargs.chain) sargs addr) with
          | .error m => .error (.transport m)
          | .ok h => .ok h) := by
    unfold sendTransactionTry
    rw [hA]
    try simp only []
    rw [hG, stepBind_ok, haddr]
    try simp only []
    rcases hC : env.sendTransactionRpc
        (sendTxRemoteRequest (resolveChainVal client sargs.chain) sargs addr)
        with e1 | hash <;> simp [hC]
  rw [sendTransaction_resolved href, htry]
  rcases hC : env.sendTransactionRpc
      (sendTxRemoteRequest (resolveChainVal client sargs.chain) sargs addr)
      with e1 | hash <;> simp [hC]

/-- For a local account, every `client.request` round-trip of the `try`
body happens after the signing capability has produced the signed
bytes. -/
lemma sendTransactionTry_local_ordered {client : Client} {env : Env}
    {sargs : SendTransactionParameters} {a0 : Address}
    {f0 : Tx → Option Nat → Except String String} {tr : List Event} {r : Except Cause String}
    (ht : sendTransactionTry client env sargs (Account.localAcc a0 f0) = (tr, r)) :
    rpcPrecededBySign tr false = true := by
  unfold sendTransactionTry at ht
  rcases hA : assertRequest sargs.«to» sargs.data sargs.gasPrice sargs.maxFeePerGas
      sargs.maxPriorityFeePerGas with e0 | u
  · rw [hA] at ht
    have h1 := congrArg Prod.fst ht
    simp at h1
    subst h1
    rfl
  · rw [hA] at ht
    try simp only [] at ht
    rcases hG : chainGuardStep env (resolveChainVal client sargs.chain) with ⟨gtr, gr⟩
    have hgtr := chainGuardStep_trace env (resolveChainVal client sargs.chain)
    rw [hG] at hgtr
    simp only at hgtr
    rw [hG] at ht
    rcases gr with e1 | c0
    · rw [stepBind_error] at ht
      have h1 := congrArg Prod.fst ht
      simp at h1
      subst h1
      rcases hgtr with h1 | h1 <;> rw [h1] <;> rfl
    · rw [stepBind_ok] at ht
      try simp only [] at ht
      rcases hP : prepareRequest (resolveChainVal client sargs.chain).toOption
          (argsToTx sargs) env with ⟨ptr, pr⟩
      have hptr := prepareRequest_trace (resolveChainVal client sargs.chain).toOption
          (argsToTx sargs) env
      rw [hP] at hptr
      simp only at hptr
      rw [hP] at ht
      rcases pr with e1 | request
      · rw [stepBind_error] at ht
        have h1 := congrArg Prod.fst ht
        simp at h1
        subst h1
        rcases hgtr with h1 | h1 <;> rcases hptr with h2 | h2 <;> rw [h1, h2] <;> rfl
      · rw [stepBind_ok] at ht
        try simp only [] at ht
        rcases hE : ensureChainId env c0 with ⟨etr, er⟩
        have hetr := ensureChainId_trace env c0
        rw [hE] at hetr
        simp only at hetr
        rw [hE] at ht
        rcases er with e2 | k
        · rw [stepBind_error] at ht
          have h1 := congrArg Prod.fst ht
          simp at h1
          subst h1
          rcases hgtr with h1 | h1 <;> rcases hptr with h2 | h2 <;>
            rcases hetr with h3 | h3 <;> rw [h1, h2, h3] <;> rfl
        · rw [stepBind_ok] at ht
          try simp only [] at ht
          have h1 := congrArg Prod.fst ht
          rcases hS : f0 { request with chainId := some k }
              ((resolveChainVal client sargs.chain).toOption.bind Chain.serializers)
              with e3 | signed
          · simp [hS] at h1
            subst h1
            rcases hgtr with h1 | h1 <;> rcases hptr with h2 | h2 <;>
              rcases hetr with h3 | h3 <;> rw [h1, h2, h3] <;>
              simp [rpcPrecededBySign]
          · rcases hB : env.sendRawTransaction signed with e4 | hash <;>
              simp [hS, hB] at h1 <;> subst h1 <;>
              (rcases hgtr with h1 | h1 <;> rcases hptr with h2 | h2 <;>
                rcases hetr with h3 | h3 <;> rw [h1, h2, h3] <;>
                simp [rpcPrecededBySign])

/-- For a local account, every `client.request` round-trip of
`sendTransaction` happens after the signing capability has produced the
signed bytes. -/
lemma send_local_ordered {client : Client} {env : Env}
    {sargs : SendTransactionParameters} {ref : AccountRef} {a0 : Address}
    {f0 : Tx → Option Nat → Except String String}
    (href : resolveAccountRef client sargs.account = some ref)
    (hacc : parseAccount ref = .localAcc a0 f0) :
    rpcPrecededBySign (sendTransaction client env sargs).1 false = true := by
  rw [sendTransaction_resolved href]
  try simp only []
  rcases h : sendTransactionTry client env sargs (parseAccount ref) with ⟨tr, r⟩
  rw [hacc] at h
  have := sendTransactionTry_local_ordered h
  simpa using this

/-- A sign-only dispatch with a local account performs no `client.request`
round-trip at all. -/
lemma sign_local_no_rpc {client : Client} {env : Env}
    {gargs : SignTransactionParameters} {ref : AccountRef} {a0 : Address}
    {f0 : Tx → Option Nat → Except String String} {m : String} {p : RpcParams}
    (href : resolveAccountRef client gargs.account = some ref)
    (hacc : parseAccount ref = .localAcc a0 f0) :
    Event.rpc m p ∉ (signTransaction client env gargs).1 := by
  intro hmem
  unfold signTransaction at hmem
  rw [href] at hmem
  try simp only [] at hmem
  rcases hA : assertRequest gargs.«to» gargs.data gargs.gasPrice gargs.maxFeePerGas
      gargs.maxPriorityFeePerGas with e0 | u
  · rw [hA] at hmem
    simp at hmem
  · rw [hA] at hmem
    try simp only [] at hmem
    rcases hc : env.chainId with m2 | n
    · rw [hc] at hmem
      simp at hmem
    · rw [hc] at hmem
      try simp only [] at hmem
      rcases hchk : signChainCheck n (resolveChainVal client gargs.chain) with e1 | u2
      · rw [hchk] at hmem
        simp at hmem
      · rw [hchk] at hmem
        try simp only [] at hmem
        rw [hacc] at hmem
        try simp only [] at hmem
        rcases hS : f0 { signArgsToTx gargs with chainId := some (gargs.chainId.getD n) }
            (client.chain.bind Chain.serializers) with e2 | bytes <;> simp [hS] at hmem


/-- C1: a failing sign-only dispatch delivers its error bare, with no
wrap at all — refuting "wrapped exactly once at the outermost boundary
of either entry point". -/
theorem C1_counterexample :
    (signTransaction clientA envWrongChain gargsC1).2
      = Except.error (DispatchError.plain (Cause.chainMismatch 1 5))
    ∧ DispatchError.isWrapped (DispatchError.plain (Cause.chainMismatch 1 5)) = false :=
  ⟨rfl, rfl⟩

/-- C1 (amended): only the sign-and-submit entry point wraps, and only
failures raised inside its `try` body (after account resolution); the
wrap carries the original args, the resolved account and the
caller-passed chain or none; account-resolution failures and all
sign-only failures are delivered unwrapped. -/
theorem C1_corrected (client : Client) (env : Env) (sargs : SendTransactionParameters)
    (gargs : SignTransactionParameters) :
    (∀ e, (sendTransaction client env sargs).2 = Except.error e →
      (resolveAccountRef client sargs.account = none ∧ e = .plain .accountNotFound)
      ∨ (∃ ref cause, resolveAccountRef client sargs.account = some ref
          ∧ e = .wrapped cause (sendErrCtx sargs (parseAccount ref))))
    ∧ (∀ e, (signTransaction client env gargs).2 = Except.error e →
        e.isWrapped = false) := by
  constructor
  · intro e he
    rcases hr : resolveAccountRef client sargs.account with _ | ref
    · left
      refine ⟨rfl, ?_⟩
      unfold sendTransaction at he
      rw [hr] at he
      simp at he
      exact he.symm
    · right
      rw [sendTransaction_resolved hr] at he
      try simp only [] at he
      rcases h2 : (sendTransactionTry client env sargs (parseAccount ref)).2 with e0 | v
      · rw [h2] at he
        simp at he
        exact ⟨ref, e0, rfl, he.symm⟩
      · rw [h2] at he
        simp at he
  · intro e he
    exact sign_error_plain he

/-- C1 witness: concrete failing runs of both entry points. -/
theorem C1_corrected_witness :
    (sendTransaction clientEmpty demoEnv sargsC1w).2
      = Except.error (DispatchError.plain Cause.accountNotFound)
    ∧ ((resolveAccountRef clientEmpty sargsC1w.account = none
        ∧ DispatchError.plain Cause.accountNotFound = .plain .accountNotFound)
      ∨ (∃ ref cause, resolveAccountRef clientEmpty sargsC1w.account = some ref
          ∧ DispatchError.plain Cause.accountNotFound
            = .wrapped cause (sendErrCtx sargsC1w (parseAccount ref)))) :=
  ⟨rfl, (C1_corrected clientEmpty demoEnv sargsC1w gargsC1w).1 _ rfl⟩

/-- C2: a `chain: null` sign-only dispatch still performs the chain-id
fetch round-trip — refuting "skip entirely, both fetch and compare". -/
theorem C2_counterexample :
    gargsC2.chain = ChainVal.null
    ∧ Event.fetchChainId ∈ (signTransaction clientA demoEnv gargsC2).1 :=
  ⟨rfl, List.Mem.head _⟩

/-- C2 (amended): `chain: null` always skips the comparison (no
`ChainMismatch` can be delivered), and skips the fetch only in the
remote branch of sign-and-submit; the sign-only entry point still
fetches. -/
theorem C2_corrected (client : Client) (env : Env) (sargs : SendTransactionParameters)
    (gargs : SignTransactionParameters) (ref : AccountRef) (addr : Address)
    (hs : sargs.chain = ChainVal.null) (hg : gargs.chain = ChainVal.null)
    (href : resolveAccountRef client sargs.account = some ref)
    (haddr : parseAccount ref = Account.jsonRpc addr) :
    Event.fetchChainId ∉ (sendTransaction client env sargs).1
    ∧ (∀ e, (sendTransaction client env sargs).2 = Except.error e →
        ∀ d a, causeOf e ≠ Cause.chainMismatch d a)
    ∧ (∀ e, (signTransaction client env gargs).2 = Except.error e →
        ∀ d a, causeOf e ≠ Cause.chainMismatch d a) := by
  refine ⟨send_null_no_fetch hs href haddr, ?_, ?_⟩
  · intro e he
    rw [sendTransaction_resolved href] at he
    try simp only [] at he
    rcases htp : sendTransactionTry client env sargs (parseAccount ref) with ⟨tr0, r0⟩
    rw [htp] at he
    rcases r0 with e0 | v
    · simp at he
      have hc := sendTransactionTry_null_cause hs htp
      subst he
      intro d a hda
      exact hc d a (by simpa [causeOf] using hda)
    · simp at he
  · intro e he
    exact sign_null_cause hg he

/-- C2 witness: a concrete opted-out remote sign-and-submit performs no
chain-id fetch. -/
theorem C2_corrected_witness :
    sargsC2w.chain = ChainVal.null ∧ gargsC2.chain = ChainVal.null
    ∧ Event.fetchChainId ∉ (sendTransaction clientA demoEnv sargsC2w).1 :=
  ⟨rfl, rfl,
    (C2_corrected clientA demoEnv sargsC2w gargsC2 (.addr "0xbb") "0xbb" rfl rfl rfl rfl).1⟩


/-- C3: in a sign-only dispatch that does not opt out, a caller-supplied
`chainId` overrides the freshly fetched id in the record handed to
signing — refuting "never a caller-cached value". The run completes and
the chain check passed against node id 1, yet the payload carries 7. -/
theorem C3_counterexample :
    demoEnv.chainId = Except.ok 1
    ∧ gargsC3.chainId = some 7
    ∧ (signTransaction clientA demoEnv gargsC3).1
        = [Event.fetchChainId, Event.sign txC3 none]
    ∧ txC3.chainId = some 7
    ∧ (signTransaction clientA demoEnv gargsC3).2 = Except.ok "0xsigned" :=
  ⟨rfl, rfl, rfl, rfl, rfl⟩

/-- C3 (amended): in sign-and-submit the payload chain id always equals
the node's freshly reported id; in sign-only it does too unless the
caller explicitly supplied a `chainId`, which takes precedence. -/
theorem C3_corrected (client : Client) (env : Env) (sargs : SendTransactionParameters)
    (gargs : SignTransactionParameters) (n : Nat) (henv : env.chainId = Except.ok n) :
    (∀ t ser, Event.sign t ser ∈ (sendTransaction client env sargs).1 →
      t.chainId = some n)
    ∧ (∀ t ser, Event.sign t ser ∈ (signTransaction client env gargs).1 →
        t.chainId = some (gargs.chainId.getD n)) := by
  constructor
  · intro t ser hmem
    obtain ⟨k, request, hk, hp, ht⟩ := send_sign_mem hmem
    rw [henv] at hk
    injection hk with hkn
    rw [ht, ← hkn]
  · intro t ser hmem
    obtain ⟨m, hm, ht⟩ := sign_sign_mem hmem
    rw [henv] at hm
    injection hm with hmn
    rw [ht, ← hmn]

/-- C3 witness: concrete runs of both conjuncts. -/
theorem C3_corrected_witness :
    demoEnv.chainId = Except.ok 1
    ∧ txC3w.chainId = some (gargsC3w.chainId.getD 1) :=
  ⟨rfl, (C3_corrected clientA demoEnv sargsC3w gargsC3w 1 rfl).2 txC3w none
    (List.Mem.tail _ (List.Mem.head _))⟩

/-- C4: a sign-only dispatch with a local account performs the chain-id
fetch round-trip strictly before the signing step — refuting "no network
round-trip before signing has produced the bytes". -/
theorem C4_counterexample :
    (signTransaction clientA demoEnv gargsC4).1
      = [Event.fetchChainId, Event.sign txC4 none]
    ∧ Event.isNetwork Event.fetchChainId = true
    ∧ Account.isLocal demoLocal = true
    ∧ (signTransaction clientA demoEnv gargsC4).2 = Except.ok "0xsigned" :=
  ⟨rfl, rfl, rfl, rfl⟩

/-- C4 (amended): the signing step itself is network-independent, and
for a local account every `client.request` round-trip (the broadcast)
comes only after the signing capability has produced the bytes; the
sign-only path performs no `client.request` round-trip at all.
Chain-id fetch and estimation round-trips do precede signing. -/
theorem C4_corrected (client : Client) (env : Env) (sargs : SendTransactionParameters)
    (gargs : SignTransactionParameters) (refS refG : AccountRef) (aS aG : Address)
    (fS fG : Tx → Option Nat → Except String String)
    (hrefS : resolveAccountRef client sargs.account = some refS)
    (haccS : parseAccount refS = Account.localAcc aS fS)
    (hrefG : resolveAccountRef client gargs.account = some refG)
    (haccG : parseAccount refG = Account.localAcc aG fG) :
    rpcPrecededBySign (sendTransaction client env sargs).1 false = true
    ∧ (∀ t ser, Event.isNetwork (Event.sign t ser) = false)
    ∧ (∀ m p, Event.rpc m p ∉ (signTransaction client env gargs).1) :=
  ⟨send_local_ordered hrefS haccS, fun _ _ => rfl,
    fun _ _ => sign_local_no_rpc hrefG haccG⟩

/-- C4 witness: a concrete local sign-and-submit run. -/
theorem C4_corrected_witness :
    resolveAccountRef clientA sargsC4w.account = some (AccountRef.acct demoLocal)
    ∧ rpcPrecededBySign (sendTransaction clientA demoEnv sargsC4w).1 false = true :=
  ⟨rfl, (C4_corrected clientA demoEnv sargsC4w gargsC4w
    (.acct demoLocal) (.acct demoLocal) "0xaaaa" "0xaaaa" demoSign demoSign
    rfl rfl rfl rfl).1⟩

/-- C5: a remote sign-and-submit dispatch sends the formatted record
with no chain id at all — refuting "the hex chain id is attached in both
modes". -/
theorem C5_counterexample :
    (sendTransaction clientA demoEnv sargsC5).1
      = [Event.fetchChainId, Event.rpc "eth_sendTransaction" (RpcParams.tx rpcC5)]
    ∧ rpcC5.chainId = none :=
  ⟨rfl, rfl⟩

/-- C5 (amended): the hex-encoded fetched chain id is attached only on
the sign-only remote path (with the baseline formatter and no
caller-supplied `chainId`); the sign-and-submit remote path sends the
record without any chain id. -/
theorem C5_corrected (client : Client) (env : Env) (sargs : SendTransactionParameters)
    (gargs : SignTransactionParameters) (n : Nat)
    (henv : env.chainId = Except.ok n)
    (hfmtG : signFormatOf client (resolveChainVal client gargs.chain)
      = formatTransactionRequest)
    (hgcid : gargs.chainId = none)
    (hfmtS : ((resolveChainVal client sargs.chain).toOption.bind Chain.formatters).bind id
      = none) :
    (∀ m r, Event.rpc m (RpcParams.tx r) ∈ (signTransaction client env gargs).1 →
      r.chainId = some (numberToHex n))
    ∧ (∀ m r, Event.rpc m (RpcParams.tx r) ∈ (sendTransaction client env sargs).1 →
        r.chainId = none) := by
  constructor
  · intro m r hmem
    obtain ⟨k, hk, hm, hr⟩ := sign_rpcTx_mem hmem
    rw [henv] at hk
    injection hk with hkn
    rw [hr, hfmtG]
    simp [formatTransactionRequest, signArgsToTx, hgcid, hkn]
  · intro m r hmem
    obtain ⟨ref, addr, href2, haddr2, hm, hr⟩ := send_rpcTx_mem hmem
    rw [hr]
    unfold sendTxRemoteRequest
    rw [hfmtS]
    simp [formatTransactionRequest, argsToTx]

/-- C5 witness: a concrete sign-only remote run carries the hex id. -/
theorem C5_corrected_witness :
    demoEnv.chainId = Except.ok 1
    ∧ rpcC5w.chainId = some (numberToHex 1) :=
  ⟨rfl, (C5_corrected clientA demoEnv sargsC5w gargsC5w 1 rfl rfl rfl rfl).1
    "eth_signTransaction" rpcC5w (List.Mem.tail _ (List.Mem.head _))⟩

/-- C6: on a chain-id mismatch both entry points stop right after the
fetch with `ChainMismatch` carrying the declared and actual ids: the
trace is the single fetch event, so no signing step and no broadcast or
remote-sign round-trip happened. -/
theorem C6_confirmed (client : Client) (env : Env) (sargs : SendTransactionParameters)
    (gargs : SignTransactionParameters) (c c2 : Chain) (n : Nat) (refS refG : AccountRef)
    (henv : env.chainId = Except.ok n)
    (hrefS : resolveAccountRef client sargs.account = some refS)
    (hAs : assertRequest sargs.«to» sargs.data sargs.gasPrice sargs.maxFeePerGas
      sargs.maxPriorityFeePerGas = Except.ok ())
    (hcs : resolveChainVal client sargs.chain = ChainVal.val c) (hne : c.id ≠ n)
    (hrefG : resolveAccountRef client gargs.account = some refG)
    (hAg : assertRequest gargs.«to» gargs.data gargs.gasPrice gargs.maxFeePerGas
      gargs.maxPriorityFeePerGas = Except.ok ())
    (hcg : resolveChainVal client gargs.chain = ChainVal.val c2) (hne2 : c2.id ≠ n) :
    (sendTransaction client env sargs).1 = [Event.fetchChainId]
    ∧ (sendTransaction client env sargs).2 = Except.error
        (.wrapped (.chainMismatch c.id n) (sendErrCtx sargs (parseAccount refS)))
    ∧ (signTransaction client env gargs).1 = [Event.fetchChainId]
    ∧ (signTransaction client env gargs).2
        = Except.error (.plain (.chainMismatch c2.id n)) := by
  have hG : chainGuardStep env (resolveChainVal client sargs.chain)
      = ([Event.fetchChainId], .error (.chainMismatch c.id n)) := by
    rw [hcs]
    exact chainGuardStep_mismatch henv hne
  have htry := sendTransactionTry_guard_error (parseAccount refS) hAs hG
  have hsign := signTransaction_mismatch hrefG hAg henv hcg hne2
  rw [sendTransaction_resolved hrefS, htry, hsign]
  exact ⟨rfl, rfl, rfl, rfl⟩

/-- C6 witness: node reports 5, declared chain is 1. -/
theorem C6_confirmed_witness :
    envWrongChain.chainId = Except.ok 5
    ∧ (sendTransaction clientA envWrongChain sargsC6).1 = [Event.fetchChainId]
    ∧ (signTransaction clientA envWrongChain gargsC6).2
        = Except.error (DispatchError.plain (Cause.chainMismatch 1 5)) := by
  have h := C6_confirmed clientA envWrongChain sargsC6 gargsC6 chain1 chain1 5
    (.acct demoLocal) (.acct demoLocal) rfl rfl rfl rfl (by decide) rfl rfl rfl (by decide)
  exact ⟨rfl, h.1, h.2.2.2⟩

/-- C7: an intent with neither recipient nor data fails both entry
points with `InvalidRequest` on an empty trace: no network round-trip
was performed. -/
theorem C7_confirmed (client : Client) (env : Env) (sargs : SendTransactionParameters)
    (gargs : SignTransactionParameters) (refS refG : AccountRef)
    (hrefS : resolveAccountRef client sargs.account = some refS)
    (hrefG : resolveAccountRef client gargs.account = some refG)
    (hsto : sargs.«to» = none) (hsdata : sargs.data = none)
    (hgto : gargs.«to» = none) (hgdata : gargs.data = none) :
    (sendTransaction client env sargs).1 = []
    ∧ (sendTransaction client env sargs).2 = Except.error
        (.wrapped (.invalidRequest "neither recipient nor data payload")
          (sendErrCtx sargs (parseAccount refS)))
    ∧ (signTransaction client env gargs).1 = []
    ∧ (signTransaction client env gargs).2
        = Except.error (.plain (.invalidRequest "neither recipient nor data payload")) := by
  have htry := sendTransactionTry_invalid client env (parseAccount refS)
    (assertRequest_noTarget hsto hsdata)
  have hsign := signTransaction_invalid env hrefG (assertRequest_noTarget hgto hgdata)
  rw [sendTransaction_resolved hrefS, htry, hsign]
  exact ⟨rfl, rfl, rfl, rfl⟩

/-- C7 witness: concrete empty intents. -/
theorem C7_confirmed_witness :
    sargsC7.«to» = none ∧ sargsC7.data = none
    ∧ (sendTransaction clientA demoEnv sargsC7).1 = []
    ∧ (signTransaction clientA demoEnv gargsC7).2
        = Except.error (DispatchError.plain
            (Cause.invalidRequest "neither recipient nor data payload")) := by
  have h := C7_confirmed clientA demoEnv sargsC7 gargsC7
    (.acct demoLocal) (.addr "0xee") rfl rfl rfl rfl rfl rfl
  exact ⟨rfl, rfl, h.1, h.2.2.2⟩

/-- C8: every field the caller explicitly set survives unchanged into
the record handed to the signing capability, in both entry points,
regardless of chain defaults and estimation results. -/
theorem C8_confirmed (client : Client) (env : Env) (sargs : SendTransactionParameters)
    (gargs : SignTransactionParameters) :
    (∀ t ser, Event.sign t ser ∈ (sendTransaction client env sargs).1 →
      callerFieldsPreserved (argsToTx sargs) t)
    ∧ (∀ t ser, Event.sign t ser ∈ (signTransaction client env gargs).1 →
        callerFieldsPreserved (signArgsToTx gargs) t) := by
  constructor
  · intro t ser hmem
    obtain ⟨k, request, hk, hp, ht⟩ := send_sign_mem hmem
    have hpres := prepareRequest_preserves hp
    rw [ht]
    exact hpres
  · intro t ser hmem
    obtain ⟨m, hm, ht⟩ := sign_sign_mem hmem
    rw [ht]
    exact ⟨fun v hv => hv, fun v hv => hv, fun v hv => hv, fun v hv => hv, fun v hv => hv,
      fun v hv => hv, fun v hv => hv, fun v hv => hv, fun v hv => hv⟩

/-- C8 witness: a concrete local sign-and-submit run where estimation
filled the gaps but the caller's to/value/gas survived. -/
theorem C8_confirmed_witness :
    Event.sign txC8 none ∈ (sendTransaction clientA demoEnv sargsC8).1
    ∧ callerFieldsPreserved (argsToTx sargsC8) txC8 :=
  ⟨List.Mem.tail _ (List.Mem.tail _ (List.Mem.head _)),
    (C8_confirmed clientA demoEnv sargsC8 gargsC8).1 txC8 none
      (List.Mem.tail _ (List.Mem.tail _ (List.Mem.head _)))⟩

/-- C9: a remote sign-and-submit dispatch that passed validation and the
guard makes exactly one `client.request` round-trip, with method
`eth_sendTransaction`, and the returned reference is handed back
unmodified. -/
theorem C9_confirmed (client : Client) (env : Env) (sargs : SendTransactionParameters)
    (ref : AccountRef) (addr : Address) (c0 : Option Nat) (gtr : List Event)
    (href : resolveAccountRef client sargs.account = some ref)
    (haddr : parseAccount ref = Account.jsonRpc addr)
    (hA : assertRequest sargs.«to» sargs.data sargs.gasPrice sargs.maxFeePerGas
      sargs.maxPriorityFeePerGas = Except.ok ())
    (hG : chainGuardStep env (resolveChainVal client sargs.chain) = (gtr, Except.ok c0)) :
    ((sendTransaction client env sargs).1.filter Event.isRpc)
      = [Event.rpc "eth_sendTransaction"
          (RpcParams.tx (sendTxRemoteRequest (resolveChainVal client sargs.chain) sargs addr))]
    ∧ (∀ hsh, env.sendTransactionRpc
          (sendTxRemoteRequest (resolveChainVal client sargs.chain) sargs addr)
          = Except.ok hsh →
        (sendTransaction client env sargs).2 = Except.ok hsh) := by
  have hshape := sendTransaction_remote_shape href haddr hA hG
  have hgtr := chainGuardStep_trace env (resolveChainVal client sargs.chain)
  rw [hG] at hgtr
  simp only at hgtr
  constructor
  · rw [hshape]
    try simp only []
    rcases hgtr with h1 | h1 <;> rw [h1] <;>
      simp [List.filter, Event.isRpc]
  · intro hsh hok
    rw [hshape]
    try simp only []
    rw [hok]

/-- C9 witness: concrete remote sign-and-submit with opt-out guard. -/
theorem C9_confirmed_witness :
    ((sendTransaction clientA demoEnv sargsC9).1.filter Event.isRpc)
      = [Event.rpc "eth_sendTransaction"
          (RpcParams.tx (sendTxRemoteRequest (resolveChainVal clientA sargsC9.chain)
            sargsC9 "0xbb"))]
    ∧ (sendTransaction clientA demoEnv sargsC9).2 = Except.ok "0xhash2" := by
  have h := C9_confirmed clientA demoEnv sargsC9 (.addr "0xbb") "0xbb" none []
    rfl rfl rfl rfl
  exact ⟨h.1, h.2 "0xhash2" rfl⟩

/-- C10: the remote sign-and-submit request always carries
`from = resolved account address` (here under the baseline formatter),
even though `SendTransactionParameters` omits `from` so the caller could
never have supplied it. -/
theorem C10_confirmed (client : Client) (env : Env) (sargs : SendTransactionParameters)
    (ref : AccountRef) (addr : Address)
    (href : resolveAccountRef client sargs.account = some ref)
    (haddr : parseAccount ref = Account.jsonRpc addr)
    (hfmt : ((resolveChainVal client sargs.chain).toOption.bind Chain.formatters).bind id
      = none) :
    ∀ m r, Event.rpc m (RpcParams.tx r) ∈ (sendTransaction client env sargs).1 →
      r.fromAddr = some addr := by
  intro m r hmem
  obtain ⟨ref2, addr2, href2, haddr2, hm, hr⟩ := send_rpcTx_mem hmem
  rw [href] at href2
  injection href2 with hrefeq
  rw [← hrefeq, haddr] at haddr2
  injection haddr2 with haddreq
  rw [hr]
  unfold sendTxRemoteRequest
  rw [hfmt]
  simp [formatTransactionRequest, argsToTx, haddreq]

/-- C10 witness: concrete remote run. -/
theorem C10_confirmed_witness :
    Event.rpc "eth_sendTransaction" (RpcParams.tx rpcC10)
      ∈ (sendTransaction clientA demoEnv sargsC10).1
    ∧ rpcC10.fromAddr = some "0xff" :=
  ⟨List.Mem.tail _ (List.Mem.head _),
    C10_confirmed clientA demoEnv sargsC10 (.addr "0xff") "0xff" rfl rfl rfl
      "eth_sendTransaction" rpcC10 (List.Mem.tail _ (List.Mem.head _))⟩

end Viem
